import Mathlib

/-!
Verification of the makematchaco storefront widgets.

This file gives a shallow embedding, in Lean, of the three source files of the
repository and proves properties of the embedded code:

* `MatchaScrollAccordion` with transition-video support (src/unnamed/part_001):
  the `Matcha` namespace below.
* The video-free `MatchaScrollAccordion` variant
  (src/assets/matcha-scroll-accordion.js): the `MatchaVariant` namespace.
* The `IngredientCards` carousel (src/unnamed/part_000, both variants share the
  same drag and arrow logic): the `Cards` namespace.

DOM state touched by the components (CSS classes, ARIA attributes, the video
element, the scroll position) is modelled explicitly as fields of state
structures; event handlers become pure state-transition functions.  A read of
`offsetHeight` (a forced layout flush) is modelled as a counter increment so
that its position in the completion sequence is observable.
-/

namespace Matcha

/-- The `data-transitions` attribute of an accordion row as the click handler
sees it: missing/empty (falsy), present but not valid JSON (`JSON.parse`
throws), or a parsed JSON object mapping product ids to video URLs. -/
inductive TransAttr
  | absent
  | malformed
  | parsed (m : List (String × String))
deriving DecidableEq

/-- One `.scroll-accordion__row` element: its `--active` class, its header's
`aria-expanded` attribute, and its `data-transitions` / `data-product-id`
dataset entries. -/
structure Row where
  active : Bool
  ariaExpanded : Bool
  transitionsAttr : TransAttr
  productId : Option String
deriving DecidableEq

/-- One `.scroll-accordion__media-item` element: its `--active` class and its
inline `style.transition` value. -/
structure MediaItem where
  active : Bool
  transitionStyle : String
deriving DecidableEq

/-- The `.scroll-accordion__video` element: its `src` attribute, its
`--playing` class, whether it is paused, and its playback position. -/
structure VideoEl where
  src : Option String
  playing : Bool
  paused : Bool
  currentTime : Int
deriving DecidableEq

/-- The whole component state: the DOM children plus the private fields
`#activeIndex`, `#isTransitioning`, `#pendingTargetIndex`.  `layoutFlushes`
counts forced synchronous layout flushes (reads of `offsetHeight`). -/
structure AccState where
  rows : List Row
  media : List MediaItem
  video : Option VideoEl
  activeIndex : Int
  isTransitioning : Bool
  pendingTargetIndex : Int
  layoutFlushes : Nat
deriving DecidableEq

/-- `for (const [i, x] of xs.entries())` style indexed map, with an explicit
starting index so that induction goes through. -/
def mapIdxFrom (f : Nat → α → β) : Nat → List α → List β
  | _, [] => []
  | i, a :: as => f i a :: mapIdxFrom f (i + 1) as

/-- JavaScript array indexing `xs[i]` with an `Int` index: out-of-range and
negative indexes give `undefined` (here `none`). -/
def getIdx (l : List α) (i : Int) : Option α :=
  if 0 ≤ i then l[i.toNat]? else none

/-- Lookup in a parsed JSON object, `transitions[targetProductId]`. -/
def lookupMap (m : List (String × String)) (k : String) : Option String :=
  (m.find? (fun p => p.1 == k)).map Prod.snd

/-- `x || null` on a string-or-undefined value: the empty string is falsy. -/
def orNull : Option String → Option String
  | none => none
  | some s => if s = "" then none else some s

/-- Embeds `#getTransitionVideo(fromIndex, toIndex)`: reads the from-row's
`data-transitions` and the to-row's `data-product-id`, returning the mapped
URL or `null` on any missing/malformed/falsy step. -/
def getTransitionVideo (rows : List Row) (fromIndex toIndex : Int) : Option String :=
  match getIdx rows fromIndex, getIdx rows toIndex with
  | some fromRow, some toRow =>
      if fromRow.transitionsAttr = TransAttr.absent then none
      else
        match toRow.productId with
        | none => none
        | some pid =>
            if pid = "" then none
            else
              match fromRow.transitionsAttr with
              | TransAttr.parsed m => orNull (lookupMap m pid)
              | _ => none
  | _, _ => none

/-- Embeds `#setActiveRowContent(index)`: sets `#activeIndex` and toggles the
`--active` class and `aria-expanded` on every row, leaving media untouched. -/
def setActiveRowContent (s : AccState) (index : Int) : AccState :=
  { s with
      activeIndex := index
      rows := mapIdxFrom (fun i r =>
        { r with
            active := decide ((i : Int) = index)
            ariaExpanded := decide ((i : Int) = index) }) 0 s.rows }

/-- Embeds `#setActiveRow(index)`: row content plus the media crossfade. -/
def setActiveRow (s : AccState) (index : Int) : AccState :=
  let s1 := setActiveRowContent s index
  { s1 with
      media := mapIdxFrom (fun i it =>
        { it with active := decide ((i : Int) = index) }) 0 s1.media }

/-- Embeds `#collapseAll()`: removes the `--active` class from every row and
media item and sets `aria-expanded="false"` everywhere.  (`#activeIndex` is
set to `-1` by the caller, not here.) -/
def collapseAll (s : AccState) : AccState :=
  { s with
      rows := s.rows.map (fun r => { r with active := false, ariaExpanded := false })
      media := s.media.map (fun it => { it with active := false }) }

/-- The video-element reset shared by `#cancelTransition` and
`#finishTransition`: remove the `--playing` class, `pause()`, remove the `src`
attribute and `load()` (which rewinds the element). -/
def resetVideoEl (v : VideoEl) : VideoEl :=
  { v with playing := false, paused := true, src := none, currentTime := 0 }

/-- Embeds `#cancelTransition()`. -/
def cancelTransition (s : AccState) : AccState :=
  { s with
      video := s.video.map resetVideoEl
      isTransitioning := false
      pendingTargetIndex := -1 }

/-- First stage of `#finishTransition`: for every media item, set
`style.transition = 'none'` and toggle the `--active` class on the target. -/
def finishMediaSwap (s : AccState) (targetIndex : Int) : AccState :=
  { s with
      media := mapIdxFrom (fun i it =>
        { it with
            transitionStyle := "none"
            active := decide ((i : Int) = targetIndex) }) 0 s.media }

/-- Second stage of `#finishTransition`: `items[0]?.offsetHeight` — a forced
layout flush when at least one media item exists. -/
def forceRepaint (s : AccState) : AccState :=
  if s.media.isEmpty then s else { s with layoutFlushes := s.layoutFlushes + 1 }

/-- Third stage of `#finishTransition`: hide and reset the video element. -/
def hideVideo (s : AccState) : AccState :=
  { s with video := s.video.map resetVideoEl }

/-- The `requestAnimationFrame` callback of `#finishTransition`: restore
`style.transition = ''` on every media item. -/
def restoreTransitions (s : AccState) : AccState :=
  { s with media := s.media.map (fun it => { it with transitionStyle := "" }) }

/-- Embeds `#finishTransition(targetIndex)` including its deferred
`requestAnimationFrame` callback. -/
def finishTransition (s : AccState) (targetIndex : Int) : AccState :=
  let s1 := finishMediaSwap s targetIndex
  let s2 := forceRepaint s1
  let s3 := hideVideo s2
  let s4 := restoreTransitions s3
  { s4 with
      isTransitioning := false
      pendingTargetIndex := -1
      activeIndex := targetIndex }

/-- Embeds `#playTransition(fromIndex, toIndex, videoUrl)`.  The `play()`
promise outcome is a separate later event (`playRejected`). -/
def playTransition (s : AccState) (fromIndex toIndex : Int) (videoUrl : String) : AccState :=
  match s.video with
  | none => setActiveRow s toIndex
  | some v =>
      let s1 := { s with isTransitioning := true, pendingTargetIndex := toIndex }
      let s2 := setActiveRowContent s1 toIndex
      { s2 with
          video := some { v with
            src := some videoUrl
            currentTime := 0
            playing := true
            paused := false } }

/-- Embeds `#handleClick` for a click on the header of the row whose
`data-index` parses to `targetIndex`, with the current `window.innerWidth`. -/
def handleClick (s : AccState) (targetIndex : Int) (windowInnerWidth : Nat) : AccState :=
  if targetIndex = s.activeIndex ∧ windowInnerWidth < 768 then
    let s1 := cancelTransition s
    let s2 := collapseAll s1
    { s2 with activeIndex := -1 }
  else
    let s1 := if s.isTransitioning then cancelTransition s else s
    if targetIndex = s1.activeIndex then s1
    else
      let fromIndex := s1.activeIndex
      match getTransitionVideo s1.rows fromIndex targetIndex with
      | some videoUrl => playTransition s1 fromIndex targetIndex videoUrl
      | none => setActiveRow s1 targetIndex

/-- Embeds `#handleVideoEnded`: unconditionally finishes with the pending
target. -/
def handleVideoEnded (s : AccState) : AccState :=
  finishTransition s s.pendingTargetIndex

/-- Embeds `#handleVideoError`: early return when not transitioning, else
cancel and fall back to a direct crossfade to the pending target. -/
def handleVideoError (s : AccState) : AccState :=
  if s.isTransitioning then
    let targetIndex := s.pendingTargetIndex
    setActiveRow (cancelTransition s) targetIndex
  else s

/-- The rejection callback of the `play()` promise in `#playTransition`:
`toIndex` is the value captured by the closure. -/
def playRejected (s : AccState) (toIndex : Int) : AccState :=
  setActiveRow (cancelTransition s) toIndex

/-- Embeds `connectedCallback()`: after wiring listeners and pre-fetching
videos (no component-state effect), sets row 0 active. -/
def connected (s : AccState) : AccState :=
  setActiveRow s 0

end Matcha

namespace MatchaVariant

/-- One row of the video-free variant. -/
structure VRow where
  active : Bool
  ariaExpanded : Bool
deriving DecidableEq

/-- The video-free variant's state: rows, media `--active` flags and
`#activeIndex`. -/
structure VState where
  rows : List VRow
  media : List Bool
  activeIndex : Int
deriving DecidableEq

/-- Embeds the variant's `#setActiveRow(index)`. -/
def vSetActiveRow (t : VState) (index : Int) : VState :=
  { t with
      activeIndex := index
      rows := Matcha.mapIdxFrom (fun i r =>
        { r with
            active := decide ((i : Int) = index)
            ariaExpanded := decide ((i : Int) = index) }) 0 t.rows
      media := Matcha.mapIdxFrom (fun i _ => decide ((i : Int) = index)) 0 t.media }

/-- Embeds the variant's `#collapseAll()`. -/
def vCollapseAll (t : VState) : VState :=
  { t with
      rows := t.rows.map (fun r => { r with active := false, ariaExpanded := false })
      media := t.media.map (fun _ => false) }

/-- Embeds the variant's `#handleClick`. -/
def vHandleClick (t : VState) (index : Int) (windowInnerWidth : Nat) : VState :=
  if index = t.activeIndex ∧ windowInnerWidth < 768 then
    { vCollapseAll t with activeIndex := -1 }
  else
    vSetActiveRow t index

/-- Embeds the variant's `connectedCallback()`. -/
def vConnected (t : VState) : VState :=
  vSetActiveRow t 0

end MatchaVariant

namespace Cards

/-- The scrollable `track` element of the `IngredientCards` carousel, plus the
two arrow buttons' `--hidden` classes. -/
structure Track where
  scrollLeft : Int
  scrollWidth : Int
  clientWidth : Int
  cursor : String
  scrollSnapType : String
  capturedPointer : Option Int
  prevHidden : Bool
  nextHidden : Bool
deriving DecidableEq

/-- The carousel component state: the track plus the private drag fields. -/
structure CarouselState where
  track : Track
  isDragging : Bool
  startX : Int
  scrollStart : Int
  arrowScrolling : Bool
deriving DecidableEq

/-- Embeds `#onPointerDown`: non-primary buttons return before any state
change; a primary-button press records the cursor X and scroll offset,
captures the pointer and switches cursor / scroll-snap styling. -/
def onPointerDown (s : CarouselState) (button : Nat) (clientX : Int) (pointerId : Int) :
    CarouselState :=
  if button ≠ 0 then s
  else
    { s with
        isDragging := true
        startX := clientX
        scrollStart := s.track.scrollLeft
        track := { s.track with
          capturedPointer := some pointerId
          cursor := "grabbing"
          scrollSnapType := "none" } }

/-- Embeds `#onPointerMove`: while dragging, set
`scrollLeft = scrollStart - (clientX - startX)`. -/
def onPointerMove (s : CarouselState) (clientX : Int) : CarouselState :=
  if s.isDragging then
    { s with track := { s.track with scrollLeft := s.scrollStart - (clientX - s.startX) } }
  else s

/-- Embeds `#onPointerUp`, also registered for `pointercancel`: end the drag,
release the pointer capture and restore cursor / scroll-snap styling. -/
def onPointerUp (s : CarouselState) (pointerId : Int) : CarouselState :=
  if s.isDragging then
    { s with
        isDragging := false
        track := { s.track with
          capturedPointer := none
          cursor := ""
          scrollSnapType := "" } }
  else s

/-- Embeds `#setArrowsForPosition(scrollLeft)` with both buttons and the track
present: toggle the `--hidden` class on each arrow. -/
def setArrowsForPosition (t : Track) (scrollLeft : Int) : Track :=
  { t with
      prevHidden := decide (scrollLeft ≤ 1)
      nextHidden := decide (scrollLeft + t.clientWidth ≥ t.scrollWidth - 1) }

end Cards

namespace Matcha

theorem length_mapIdxFrom (f : Nat → α → β) (i : Nat) (l : List α) :
    (mapIdxFrom f i l).length = l.length := by
  induction l generalizing i with
  | nil => rfl
  | cons a as ih => simp [mapIdxFrom, ih]

theorem getElem?_mapIdxFrom (f : Nat → α → β) (i : Nat) (l : List α) (j : Nat) :
    (mapIdxFrom f i l)[j]? = l[j]?.map (f (i + j)) := by
  induction l generalizing i j with
  | nil => simp [mapIdxFrom]
  | cons a as ih =>
      cases j with
      | zero => simp [mapIdxFrom]
      | succ j =>
          simp only [mapIdxFrom, List.getElem?_cons_succ, ih]
          have h : i + 1 + j = i + (j + 1) := by omega
          rw [h]

/-- Exactly the rows at positions equal to `k` (none, when `k` is out of
range) carry the `--active` class and `aria-expanded="true"`. -/
def rowsExactly (rows : List Row) (k : Int) : Prop :=
  ∀ (j : Nat) (r : Row), rows[j]? = some r →
    r.active = decide ((j : Int) = k) ∧ r.ariaExpanded = decide ((j : Int) = k)

/-- Exactly the media items at positions equal to `k` carry the
`--active` class. -/
def mediaExactly (media : List MediaItem) (k : Int) : Prop :=
  ∀ (j : Nat) (it : MediaItem), media[j]? = some it →
    it.active = decide ((j : Int) = k)

@[simp] theorem setActiveRowContent_activeIndex (s : AccState) (i : Int) :
    (setActiveRowContent s i).activeIndex = i := rfl

@[simp] theorem setActiveRowContent_media (s : AccState) (i : Int) :
    (setActiveRowContent s i).media = s.media := rfl

@[simp] theorem setActiveRowContent_video (s : AccState) (i : Int) :
    (setActiveRowContent s i).video = s.video := rfl

@[simp] theorem setActiveRowContent_isTransitioning (s : AccState) (i : Int) :
    (setActiveRowContent s i).isTransitioning = s.isTransitioning := rfl

@[simp] theorem setActiveRowContent_pendingTargetIndex (s : AccState) (i : Int) :
    (setActiveRowContent s i).pendingTargetIndex = s.pendingTargetIndex := rfl

@[simp] theorem setActiveRowContent_layoutFlushes (s : AccState) (i : Int) :
    (setActiveRowContent s i).layoutFlushes = s.layoutFlushes := rfl

@[simp] theorem setActiveRowContent_rows_length (s : AccState) (i : Int) :
    (setActiveRowContent s i).rows.length = s.rows.length := by
  simp [setActiveRowContent, length_mapIdxFrom]

@[simp] theorem setActiveRow_activeIndex (s : AccState) (i : Int) :
    (setActiveRow s i).activeIndex = i := rfl

@[simp] theorem setActiveRow_rows (s : AccState) (i : Int) :
    (setActiveRow s i).rows = (setActiveRowContent s i).rows := rfl

@[simp] theorem setActiveRow_video (s : AccState) (i : Int) :
    (setActiveRow s i).video = s.video := rfl

@[simp] theorem setActiveRow_isTransitioning (s : AccState) (i : Int) :
    (setActiveRow s i).isTransitioning = s.isTransitioning := rfl

@[simp] theorem setActiveRow_pendingTargetIndex (s : AccState) (i : Int) :
    (setActiveRow s i).pendingTargetIndex = s.pendingTargetIndex := rfl

@[simp] theorem setActiveRow_layoutFlushes (s : AccState) (i : Int) :
    (setActiveRow s i).layoutFlushes = s.layoutFlushes := rfl

@[simp] theorem setActiveRow_media_length (s : AccState) (i : Int) :
    (setActiveRow s i).media.length = s.media.length := by
  simp [setActiveRow, length_mapIdxFrom]

@[simp] theorem collapseAll_activeIndex (s : AccState) :
    (collapseAll s).activeIndex = s.activeIndex := rfl

@[simp] theorem collapseAll_video (s : AccState) :
    (collapseAll s).video = s.video := rfl

@[simp] theorem collapseAll_isTransitioning (s : AccState) :
    (collapseAll s).isTransitioning = s.isTransitioning := rfl

@[simp] theorem collapseAll_pendingTargetIndex (s : AccState) :
    (collapseAll s).pendingTargetIndex = s.pendingTargetIndex := rfl

@[simp] theorem collapseAll_rows_length (s : AccState) :
    (collapseAll s).rows.length = s.rows.length := by
  simp [collapseAll]

@[simp] theorem collapseAll_media_length (s : AccState) :
    (collapseAll s).media.length = s.media.length := by
  simp [collapseAll]

@[simp] theorem cancelTransition_rows (s : AccState) :
    (cancelTransition s).rows = s.rows := rfl

@[simp] theorem cancelTransition_media (s : AccState) :
    (cancelTransition s).media = s.media := rfl

@[simp] theorem cancelTransition_activeIndex (s : AccState) :
    (cancelTransition s).activeIndex = s.activeIndex := rfl

@[simp] theorem cancelTransition_isTransitioning (s : AccState) :
    (cancelTransition s).isTransitioning = false := rfl

@[simp] theorem cancelTransition_pendingTargetIndex (s : AccState) :
    (cancelTransition s).pendingTargetIndex = -1 := rfl

@[simp] theorem cancelTransition_video (s : AccState) :
    (cancelTransition s).video = s.video.map resetVideoEl := rfl

@[simp] theorem cancelTransition_layoutFlushes (s : AccState) :
    (cancelTransition s).layoutFlushes = s.layoutFlushes := rfl

@[simp] theorem forceRepaint_rows (s : AccState) :
    (forceRepaint s).rows = s.rows := by
  unfold forceRepaint; split <;> rfl

@[simp] theorem forceRepaint_media (s : AccState) :
    (forceRepaint s).media = s.media := by
  unfold forceRepaint; split <;> rfl

@[simp] theorem forceRepaint_video (s : AccState) :
    (forceRepaint s).video = s.video := by
  unfold forceRepaint; split <;> rfl

@[simp] theorem forceRepaint_activeIndex (s : AccState) :
    (forceRepaint s).activeIndex = s.activeIndex := by
  unfold forceRepaint; split <;> rfl

@[simp] theorem forceRepaint_isTransitioning (s : AccState) :
    (forceRepaint s).isTransitioning = s.isTransitioning := by
  unfold forceRepaint; split <;> rfl

@[simp] theorem forceRepaint_pendingTargetIndex (s : AccState) :
    (forceRepaint s).pendingTargetIndex = s.pendingTargetIndex := by
  unfold forceRepaint; split <;> rfl

@[simp] theorem finishMediaSwap_rows (s : AccState) (t : Int) :
    (finishMediaSwap s t).rows = s.rows := rfl

@[simp] theorem finishMediaSwap_video (s : AccState) (t : Int) :
    (finishMediaSwap s t).video = s.video := rfl

@[simp] theorem hideVideo_rows (s : AccState) :
    (hideVideo s).rows = s.rows := rfl

@[simp] theorem hideVideo_media (s : AccState) :
    (hideVideo s).media = s.media := rfl

@[simp] theorem restoreTransitions_rows (s : AccState) :
    (restoreTransitions s).rows = s.rows := rfl

@[simp] theorem restoreTransitions_video (s : AccState) :
    (restoreTransitions s).video = s.video := rfl

@[simp] theorem finishTransition_isTransitioning (s : AccState) (t : Int) :
    (finishTransition s t).isTransitioning = false := rfl

@[simp] theorem finishTransition_pendingTargetIndex (s : AccState) (t : Int) :
    (finishTransition s t).pendingTargetIndex = -1 := rfl

@[simp] theorem finishTransition_activeIndex (s : AccState) (t : Int) :
    (finishTransition s t).activeIndex = t := rfl

@[simp] theorem finishTransition_rows (s : AccState) (t : Int) :
    (finishTransition s t).rows = s.rows := by
  simp [finishTransition, restoreTransitions, hideVideo]

@[simp] theorem finishTransition_video (s : AccState) (t : Int) :
    (finishTransition s t).video = s.video.map resetVideoEl := by
  simp [finishTransition, restoreTransitions, hideVideo]

@[simp] theorem finishTransition_media_length (s : AccState) (t : Int) :
    (finishTransition s t).media.length = s.media.length := by
  simp [finishTransition, restoreTransitions, hideVideo, finishMediaSwap, length_mapIdxFrom]

theorem rowsExactly_setActiveRowContent (s : AccState) (i : Int) :
    rowsExactly (setActiveRowContent s i).rows i := by
  intro j r h
  simp only [setActiveRowContent, getElem?_mapIdxFrom, Nat.zero_add] at h
  cases hg : s.rows[j]? with
  | none => rw [hg] at h; simp at h
  | some r0 =>
      rw [hg] at h
      simp only [Option.map_some', Option.some.injEq] at h
      subst h
      exact ⟨rfl, rfl⟩

theorem rowsExactly_setActiveRow (s : AccState) (i : Int) :
    rowsExactly (setActiveRow s i).rows i :=
  rowsExactly_setActiveRowContent s i

theorem mediaExactly_setActiveRow (s : AccState) (i : Int) :
    mediaExactly (setActiveRow s i).media i := by
  intro j it h
  simp only [setActiveRow, getElem?_mapIdxFrom, Nat.zero_add,
    setActiveRowContent_media] at h
  cases hg : s.media[j]? with
  | none => rw [hg] at h; simp at h
  | some it0 =>
      rw [hg] at h
      simp only [Option.map_some', Option.some.injEq] at h
      subst h
      rfl

theorem rowsExactly_collapseAll (s : AccState) :
    rowsExactly (collapseAll s).rows (-1) := by
  intro j r h
  simp only [collapseAll, List.getElem?_map] at h
  cases hg : s.rows[j]? with
  | none => rw [hg] at h; simp at h
  | some r0 =>
      rw [hg] at h
      simp only [Option.map_some', Option.some.injEq] at h
      subst h
      have hj : ¬((j : Int) = -1) := by omega
      simp [hj]

theorem mediaExactly_collapseAll (s : AccState) :
    mediaExactly (collapseAll s).media (-1) := by
  intro j it h
  simp only [collapseAll, List.getElem?_map] at h
  cases hg : s.media[j]? with
  | none => rw [hg] at h; simp at h
  | some it0 =>
      rw [hg] at h
      simp only [Option.map_some', Option.some.injEq] at h
      subst h
      have hj : ¬((j : Int) = -1) := by omega
      simp [hj]

theorem mediaExactly_finishTransition (s : AccState) (t : Int) :
    mediaExactly (finishTransition s t).media t := by
  intro j it h
  simp only [finishTransition, restoreTransitions, hideVideo, forceRepaint_media,
    finishMediaSwap, List.getElem?_map, getElem?_mapIdxFrom, Nat.zero_add] at h
  cases hg : s.media[j]? with
  | none => rw [hg] at h; simp at h
  | some it0 =>
      rw [hg] at h
      simp only [Option.map_some', Option.some.injEq] at h
      subst h
      rfl

theorem transitionStyle_finishTransition (s : AccState) (t : Int) :
    ∀ (j : Nat) (it : MediaItem), (finishTransition s t).media[j]? = some it →
      it.transitionStyle = "" := by
  intro j it h
  simp only [finishTransition, restoreTransitions, hideVideo, forceRepaint_media,
    finishMediaSwap, List.getElem?_map, getElem?_mapIdxFrom, Nat.zero_add] at h
  cases hg : s.media[j]? with
  | none => rw [hg] at h; simp at h
  | some it0 =>
      rw [hg] at h
      simp only [Option.map_some', Option.some.injEq] at h
      subst h
      rfl

/-- Structural invariant maintained by every reachable state of the
video-enabled accordion: row `--active` classes and `aria-expanded` always
mirror `#activeIndex`; at most one media item is active; `#activeIndex` is
`-1` (collapsed) or a valid row index; while transitioning, the pending
target is a valid row index already committed to `#activeIndex` by
`#setActiveRowContent`; while idle the pending target is `-1`. -/
structure AccInv (s : AccState) : Prop where
  rowsOk : rowsExactly s.rows s.activeIndex
  mediaOk : ∃ k : Int, mediaExactly s.media k
  aiOk : s.activeIndex = -1 ∨ (0 ≤ s.activeIndex ∧ s.activeIndex.toNat < s.rows.length)
  pendTrans : s.isTransitioning = true →
    0 ≤ s.pendingTargetIndex ∧ s.pendingTargetIndex.toNat < s.rows.length ∧
      s.activeIndex = s.pendingTargetIndex
  pendIdle : s.isTransitioning = false → s.pendingTargetIndex = -1

/-- States the video-enabled accordion can reach after `connectedCallback` on
markup with at least one row (class fields start as `#isTransitioning =
false`, `#pendingTargetIndex = -1`): row-header clicks on existing rows, the
video `ended` event (which the browser only delivers while the component's
video is playing, i.e. during a transition), the video `error` event (any
time), and rejection of the in-flight `play()` promise. -/
inductive Reach (s0 : AccState) : AccState → Prop
  | mount : s0.rows ≠ [] → s0.isTransitioning = false → s0.pendingTargetIndex = -1 →
      Reach s0 (connected s0)
  | click {s : AccState} (i w : Nat) : Reach s0 s → i < s.rows.length →
      Reach s0 (handleClick s (i : Int) w)
  | ended {s : AccState} : Reach s0 s → s.isTransitioning = true →
      Reach s0 (handleVideoEnded s)
  | vidErr {s : AccState} : Reach s0 s → Reach s0 (handleVideoError s)
  | rejected {s : AccState} : Reach s0 s → s.isTransitioning = true →
      Reach s0 (playRejected s s.pendingTargetIndex)

theorem accInv_setActiveRow (s : AccState) (i : Int)
    (hT : s.isTransitioning = false) (hP : s.pendingTargetIndex = -1)
    (h0 : 0 ≤ i) (hlt : i.toNat < s.rows.length) :
    AccInv (setActiveRow s i) := by
  refine ⟨rowsExactly_setActiveRow s i, ⟨i, mediaExactly_setActiveRow s i⟩, ?_, ?_, ?_⟩
  · right
    refine ⟨h0, ?_⟩
    simpa using hlt
  · intro h
    rw [setActiveRow_isTransitioning, hT] at h
    cases h
  · intro _
    rw [setActiveRow_pendingTargetIndex, hP]

theorem accInv_collapseBranch (s : AccState) :
    AccInv { collapseAll (cancelTransition s) with activeIndex := -1 } := by
  refine ⟨?_, ⟨-1, ?_⟩, Or.inl rfl, ?_, fun _ => rfl⟩
  · exact rowsExactly_collapseAll (cancelTransition s)
  · exact mediaExactly_collapseAll (cancelTransition s)
  · intro h
    exact absurd h (by simp [collapseAll])

theorem accInv_playTransition (s : AccState) (f i : Int) (url : String)
    (inv : AccInv s)
    (hT : s.isTransitioning = false) (hP : s.pendingTargetIndex = -1)
    (h0 : 0 ≤ i) (hlt : i.toNat < s.rows.length) :
    AccInv (playTransition s f i url) := by
  unfold playTransition
  cases hv : s.video with
  | none => exact accInv_setActiveRow s i hT hP h0 hlt
  | some v =>
      obtain ⟨k, mk⟩ := inv.mediaOk
      refine ⟨?_, ⟨k, ?_⟩, ?_, ?_, ?_⟩
      · exact rowsExactly_setActiveRowContent _ i
      · exact mk
      · right
        refine ⟨h0, ?_⟩
        simpa using hlt
      · intro _
        exact ⟨h0, by simpa using hlt, rfl⟩
      · intro h
        cases h

theorem accInv_cancelTransition (s : AccState) (inv : AccInv s) :
    AccInv (cancelTransition s) := by
  refine ⟨?_, inv.mediaOk, ?_, ?_, fun _ => rfl⟩
  · rw [cancelTransition_rows, cancelTransition_activeIndex]
    exact inv.rowsOk
  · rw [cancelTransition_activeIndex, cancelTransition_rows]
    exact inv.aiOk
  · intro h
    rw [cancelTransition_isTransitioning] at h
    cases h

theorem accInv_handleClick (s : AccState) (inv : AccInv s) (i w : Nat)
    (hi : i < s.rows.length) : AccInv (handleClick s (i : Int) w) := by
  have hinat : ((i : Int)).toNat = i := by omega
  unfold handleClick
  by_cases h1 : (i : Int) = s.activeIndex ∧ w < 768
  · rw [if_pos h1]
    exact accInv_collapseBranch s
  · rw [if_neg h1]
    by_cases hT : s.isTransitioning = true
    · rw [if_pos hT]
      by_cases h2 : (i : Int) = (cancelTransition s).activeIndex
      · rw [if_pos h2]
        exact accInv_cancelTransition s inv
      · rw [if_neg h2]
        dsimp only
        cases hg : getTransitionVideo (cancelTransition s).rows
            (cancelTransition s).activeIndex (i : Int) with
        | none =>
            exact accInv_setActiveRow (cancelTransition s) (i : Int) rfl rfl
              (by omega) (by rw [hinat, cancelTransition_rows]; exact hi)
        | some url =>
            exact accInv_playTransition (cancelTransition s) _ (i : Int) url
              (accInv_cancelTransition s inv)
              rfl rfl (by omega) (by rw [hinat, cancelTransition_rows]; exact hi)
    · rw [if_neg hT]
      have hTf : s.isTransitioning = false := by
        cases hb : s.isTransitioning
        · rfl
        · exact absurd hb hT
      by_cases h2 : (i : Int) = s.activeIndex
      · rw [if_pos h2]
        exact inv
      · rw [if_neg h2]
        dsimp only
        cases hg : getTransitionVideo s.rows s.activeIndex (i : Int) with
        | none =>
            exact accInv_setActiveRow s (i : Int) hTf (inv.pendIdle hTf)
              (by omega) (by rw [hinat]; exact hi)
        | some url =>
            exact accInv_playTransition s _ (i : Int) url inv hTf (inv.pendIdle hTf)
              (by omega) (by rw [hinat]; exact hi)

theorem accInv_handleVideoEnded (s : AccState) (inv : AccInv s)
    (hT : s.isTransitioning = true) : AccInv (handleVideoEnded s) := by
  obtain ⟨hp0, hplt, hae⟩ := inv.pendTrans hT
  unfold handleVideoEnded
  refine ⟨?_, ⟨s.pendingTargetIndex, mediaExactly_finishTransition s _⟩, ?_, ?_, fun _ => rfl⟩
  · rw [finishTransition_rows]
    show rowsExactly s.rows s.pendingTargetIndex
    rw [← hae]
    exact inv.rowsOk
  · right
    rw [finishTransition_rows, finishTransition_activeIndex]
    exact ⟨hp0, hplt⟩
  · intro h
    rw [finishTransition_isTransitioning] at h
    cases h

theorem accInv_handleVideoError (s : AccState) (inv : AccInv s) :
    AccInv (handleVideoError s) := by
  unfold handleVideoError
  by_cases hT : s.isTransitioning = true
  · obtain ⟨hp0, hplt, _⟩ := inv.pendTrans hT
    simp only [hT, if_true]
    exact accInv_setActiveRow (cancelTransition s) s.pendingTargetIndex rfl rfl hp0
      (by rw [cancelTransition_rows]; exact hplt)
  · have hTf : s.isTransitioning = false := by
      cases hb : s.isTransitioning
      · rfl
      · exact absurd hb hT
    simp only [hTf, if_false]
    exact inv

theorem accInv_playRejected (s : AccState) (inv : AccInv s)
    (hT : s.isTransitioning = true) : AccInv (playRejected s s.pendingTargetIndex) := by
  obtain ⟨hp0, hplt, _⟩ := inv.pendTrans hT
  unfold playRejected
  exact accInv_setActiveRow (cancelTransition s) s.pendingTargetIndex rfl rfl hp0
    (by rw [cancelTransition_rows]; exact hplt)

theorem accInv_connected (s0 : AccState) (hne : s0.rows ≠ [])
    (hT : s0.isTransitioning = false) (hP : s0.pendingTargetIndex = -1) :
    AccInv (connected s0) := by
  unfold connected
  exact accInv_setActiveRow s0 0 hT hP le_rfl
    (by simpa [List.length_pos] using hne)

theorem accInv_of_reach {s0 s : AccState} (h : Reach s0 s) : AccInv s := by
  induction h with
  | mount hne hT hP => exact accInv_connected s0 hne hT hP
  | click i w _ hi ih => exact accInv_handleClick _ ih i w hi
  | ended _ hT ih => exact accInv_handleVideoEnded _ ih hT
  | vidErr _ ih => exact accInv_handleVideoError _ ih
  | rejected _ hT ih => exact accInv_playRejected _ ih hT

/-- At most one element of `l` satisfies `p`. -/
def atMostOneActive (l : List α) (p : α → Bool) : Prop :=
  ∀ (i j : Nat) (a b : α), l[i]? = some a → l[j]? = some b →
    p a = true → p b = true → i = j

/-- What the (amended) settled-state invariant asserts for the video-enabled
accordion: at most one active row, `aria-expanded` mirroring the row class,
zero active rows exactly in the collapsed (`#activeIndex = -1`) state, and at
most one active media item. -/
def AccSettledOk (s : AccState) : Prop :=
  atMostOneActive s.rows (fun r => r.active) ∧
  (∀ (j : Nat) (r : Row), s.rows[j]? = some r → r.ariaExpanded = r.active) ∧
  (s.activeIndex = -1 → ∀ (j : Nat) (r : Row), s.rows[j]? = some r → r.active = false) ∧
  (s.activeIndex ≠ -1 → ∃ (j : Nat) (r : Row), s.rows[j]? = some r ∧ r.active = true ∧
    ∀ (j2 : Nat) (r2 : Row), s.rows[j2]? = some r2 → r2.active = true → j2 = j) ∧
  atMostOneActive s.media (fun it => it.active)

theorem settledOk_of_inv (s : AccState) (inv : AccInv s) : AccSettledOk s := by
  obtain ⟨rowsOk, ⟨k, mk⟩, aiOk, _, _⟩ := inv
  refine ⟨?_, ?_, ?_, ?_, ?_⟩
  · intro i j a b ha hb hpa hpb
    have h1 : decide ((i : Int) = s.activeIndex) = true := by
      rw [← (rowsOk i a ha).1]; exact hpa
    have h2 : decide ((j : Int) = s.activeIndex) = true := by
      rw [← (rowsOk j b hb).1]; exact hpb
    have h1' := of_decide_eq_true h1
    have h2' := of_decide_eq_true h2
    omega
  · intro j r h
    obtain ⟨h1, h2⟩ := rowsOk j r h
    rw [h1, h2]
  · intro hai j r h
    have h1 := (rowsOk j r h).1
    rw [hai] at h1
    have hj : ¬((j : Int) = -1) := by omega
    simpa [hj] using h1
  · intro hai
    rcases aiOk with h | ⟨h0, hlt⟩
    · exact absurd h hai
    · obtain ⟨r, hr⟩ : ∃ r, s.rows[s.activeIndex.toNat]? = some r :=
        ⟨_, List.getElem?_eq_getElem hlt⟩
      refine ⟨s.activeIndex.toNat, r, hr, ?_, ?_⟩
      · rw [(rowsOk _ r hr).1]
        have : ((s.activeIndex.toNat : Int)) = s.activeIndex := Int.toNat_of_nonneg h0
        simp [this]
      · intro j2 r2 h2 hact
        have hd : decide ((j2 : Int) = s.activeIndex) = true := by
          rw [← (rowsOk j2 r2 h2).1]; exact hact
        have := of_decide_eq_true hd
        omega
  · intro i j a b ha hb hpa hpb
    have h1 : decide ((i : Int) = k) = true := by rw [← mk i a ha]; exact hpa
    have h2 : decide ((j : Int) = k) = true := by rw [← mk j b hb]; exact hpb
    have h1' := of_decide_eq_true h1
    have h2' := of_decide_eq_true h2
    omega

end Matcha

namespace MatchaVariant

/-- Exactly the rows at positions equal to `k` carry the `--active` class and
`aria-expanded="true"` (variant component). -/
def vRowsExactly (rows : List VRow) (k : Int) : Prop :=
  ∀ (j : Nat) (r : VRow), rows[j]? = some r →
    r.active = decide ((j : Int) = k) ∧ r.ariaExpanded = decide ((j : Int) = k)

/-- Exactly the media items at positions equal to `k` carry the `--active`
class (variant component). -/
def vMediaExactly (media : List Bool) (k : Int) : Prop :=
  ∀ (j : Nat) (b : Bool), media[j]? = some b → b = decide ((j : Int) = k)

@[simp] theorem vSetActiveRow_activeIndex (t : VState) (i : Int) :
    (vSetActiveRow t i).activeIndex = i := rfl

@[simp] theorem vSetActiveRow_rows_length (t : VState) (i : Int) :
    (vSetActiveRow t i).rows.length = t.rows.length := by
  simp [vSetActiveRow, Matcha.length_mapIdxFrom]

@[simp] theorem vSetActiveRow_media_length (t : VState) (i : Int) :
    (vSetActiveRow t i).media.length = t.media.length := by
  simp [vSetActiveRow, Matcha.length_mapIdxFrom]

@[simp] theorem vCollapseAll_activeIndex (t : VState) :
    (vCollapseAll t).activeIndex = t.activeIndex := rfl

theorem vRowsExactly_vSetActiveRow (t : VState) (i : Int) :
    vRowsExactly (vSetActiveRow t i).rows i := by
  intro j r h
  simp only [vSetActiveRow, Matcha.getElem?_mapIdxFrom, Nat.zero_add] at h
  cases hg : t.rows[j]? with
  | none => rw [hg] at h; simp at h
  | some r0 =>
      rw [hg] at h
      simp only [Option.map_some', Option.some.injEq] at h
      subst h
      exact ⟨rfl, rfl⟩

theorem vMediaExactly_vSetActiveRow (t : VState) (i : Int) :
    vMediaExactly (vSetActiveRow t i).media i := by
  intro j b h
  simp only [vSetActiveRow, Matcha.getElem?_mapIdxFrom, Nat.zero_add] at h
  cases hg : t.media[j]? with
  | none => rw [hg] at h; simp at h
  | some b0 =>
      rw [hg] at h
      simp only [Option.map_some', Option.some.injEq] at h
      subst h
      rfl

theorem vRowsExactly_vCollapseAll (t : VState) :
    vRowsExactly (vCollapseAll t).rows (-1) := by
  intro j r h
  simp only [vCollapseAll, List.getElem?_map] at h
  cases hg : t.rows[j]? with
  | none => rw [hg] at h; simp at h
  | some r0 =>
      rw [hg] at h
      simp only [Option.map_some', Option.some.injEq] at h
      subst h
      have hj : ¬((j : Int) = -1) := by omega
      simp [hj]

theorem vMediaExactly_vCollapseAll (t : VState) :
    vMediaExactly (vCollapseAll t).media (-1) := by
  intro j b h
  simp only [vCollapseAll, List.getElem?_map] at h
  cases hg : t.media[j]? with
  | none => rw [hg] at h; simp at h
  | some b0 =>
      rw [hg] at h
      simp only [Option.map_some', Option.some.injEq] at h
      subst h
      have hj : ¬((j : Int) = -1) := by omega
      simp [hj]

/-- Structural invariant of every reachable state of the variant accordion:
row and media `--active` classes both mirror `#activeIndex`. -/
structure VInv (t : VState) : Prop where
  rowsOk : vRowsExactly t.rows t.activeIndex
  mediaOk : vMediaExactly t.media t.activeIndex
  aiOk : t.activeIndex = -1 ∨ (0 ≤ t.activeIndex ∧ t.activeIndex.toNat < t.rows.length)

/-- States the variant accordion can reach after `connectedCallback` on
markup with at least one row: row-header clicks on existing rows. -/
inductive VReach (t0 : VState) : VState → Prop
  | mount : t0.rows ≠ [] → VReach t0 (vConnected t0)
  | click {t : VState} (i w : Nat) : VReach t0 t → i < t.rows.length →
      VReach t0 (vHandleClick t (i : Int) w)

theorem vInv_vSetActiveRow (t : VState) (i : Int)
    (h0 : 0 ≤ i) (hlt : i.toNat < t.rows.length) : VInv (vSetActiveRow t i) := by
  refine ⟨vRowsExactly_vSetActiveRow t i, vMediaExactly_vSetActiveRow t i, ?_⟩
  right
  exact ⟨h0, by simpa using hlt⟩

theorem vInv_vHandleClick (t : VState) (inv : VInv t) (i w : Nat)
    (hi : i < t.rows.length) : VInv (vHandleClick t (i : Int) w) := by
  have hinat : ((i : Int)).toNat = i := by omega
  unfold vHandleClick
  by_cases h1 : (i : Int) = t.activeIndex ∧ w < 768
  · rw [if_pos h1]
    exact ⟨vRowsExactly_vCollapseAll t, vMediaExactly_vCollapseAll t, Or.inl rfl⟩
  · rw [if_neg h1]
    exact vInv_vSetActiveRow t (i : Int) (by omega) (by rw [hinat]; exact hi)

theorem vInv_of_reach {t0 t : VState} (h : VReach t0 t) : VInv t := by
  induction h with
  | mount hne =>
      exact vInv_vSetActiveRow t0 0 le_rfl (by simpa [List.length_pos] using hne)
  | click i w _ hi ih => exact vInv_vHandleClick _ ih i w hi

/-- The settled-state shape of the variant accordion: at most one active row,
`aria-expanded` mirroring the row class, zero active rows exactly in the
collapsed state, at most one active media item. -/
def VSettledOk (t : VState) : Prop :=
  Matcha.atMostOneActive t.rows (fun r => r.active) ∧
  (∀ (j : Nat) (r : VRow), t.rows[j]? = some r → r.ariaExpanded = r.active) ∧
  (t.activeIndex = -1 → ∀ (j : Nat) (r : VRow), t.rows[j]? = some r → r.active = false) ∧
  (t.activeIndex ≠ -1 → ∃ (j : Nat) (r : VRow), t.rows[j]? = some r ∧ r.active = true ∧
    ∀ (j2 : Nat) (r2 : VRow), t.rows[j2]? = some r2 → r2.active = true → j2 = j) ∧
  Matcha.atMostOneActive t.media (fun b => b)

theorem vSettledOk_of_inv (t : VState) (inv : VInv t) : VSettledOk t := by
  obtain ⟨rowsOk, mk, aiOk⟩ := inv
  refine ⟨?_, ?_, ?_, ?_, ?_⟩
  · intro i j a b ha hb hpa hpb
    have h1 : decide ((i : Int) = t.activeIndex) = true := by
      rw [← (rowsOk i a ha).1]; exact hpa
    have h2 : decide ((j : Int) = t.activeIndex) = true := by
      rw [← (rowsOk j b hb).1]; exact hpb
    have h1' := of_decide_eq_true h1
    have h2' := of_decide_eq_true h2
    omega
  · intro j r h
    obtain ⟨h1, h2⟩ := rowsOk j r h
    rw [h1, h2]
  · intro hai j r h
    have h1 := (rowsOk j r h).1
    rw [hai] at h1
    have hj : ¬((j : Int) = -1) := by omega
    simpa [hj] using h1
  · intro hai
    rcases aiOk with h | ⟨h0, hlt⟩
    · exact absurd h hai
    · obtain ⟨r, hr⟩ : ∃ r, t.rows[t.activeIndex.toNat]? = some r :=
        ⟨_, List.getElem?_eq_getElem hlt⟩
      refine ⟨t.activeIndex.toNat, r, hr, ?_, ?_⟩
      · rw [(rowsOk _ r hr).1]
        have hco : ((t.activeIndex.toNat : Int)) = t.activeIndex := Int.toNat_of_nonneg h0
        simp [hco]
      · intro j2 r2 h2 hact
        have hd : decide ((j2 : Int) = t.activeIndex) = true := by
          rw [← (rowsOk j2 r2 h2).1]; exact hact
        have := of_decide_eq_true hd
        omega
  · intro i j a b ha hb hpa hpb
    have h1 : decide ((i : Int) = t.activeIndex) = true := by
      have := mk i a ha
      rw [← this]; exact hpa
    have h2 : decide ((j : Int) = t.activeIndex) = true := by
      have := mk j b hb
      rw [← this]; exact hpb
    have h1' := of_decide_eq_true h1
    have h2' := of_decide_eq_true h2
    omega

end MatchaVariant

namespace Matcha

/-- One-row fixture: no transition data, one media item, a video element. -/
def initRows1 : List Row := [⟨false, false, TransAttr.absent, some "p"⟩]

/-- Media list of the one-row fixture. -/
def initMedia1 : List MediaItem := [⟨false, ""⟩]

/-- A video element in its initial (idle) state. -/
def initVideo : VideoEl := ⟨none, false, true, 0⟩

/-- The one-row accordion before `connectedCallback`. -/
def init1 : AccState := ⟨initRows1, initMedia1, some initVideo, 0, false, -1, 0⟩

/-- Three-row fixture: row 0 has a transition video towards row 1's product,
row 1 has one towards row 2's product, row 2 has none. -/
def rows3 : List Row :=
  [⟨false, false, TransAttr.parsed [("p1", "a-to-b.mp4")], some "p0"⟩,
   ⟨false, false, TransAttr.parsed [("p2", "b-to-c.mp4")], some "p1"⟩,
   ⟨false, false, TransAttr.absent, some "p2"⟩]

/-- Media list of the three-row fixture. -/
def media3 : List MediaItem := [⟨false, ""⟩, ⟨false, ""⟩, ⟨false, ""⟩]

/-- The three-row accordion before `connectedCallback`. -/
def init3 : AccState := ⟨rows3, media3, some initVideo, 0, false, -1, 0⟩

/-- The three-row accordion settled on row 0 after mount. -/
def sA : AccState := connected init3

/-- The three-row accordion mid-transition: row 0 was active, row 1 was
clicked on a wide viewport, the row-0-to-row-1 video is playing. -/
def sAB : AccState := handleClick sA 1 1024

/-- The video element while the row-0-to-row-1 transition video plays. -/
def vAB : VideoEl := ⟨some "a-to-b.mp4", true, false, 0⟩

/-- The dataset fields of a row that `#getTransitionVideo` reads (everything
except the mutable active/ARIA flags). -/
def rowKey (r : Row) : TransAttr × Option String := (r.transitionsAttr, r.productId)

theorem getIdx_map (f : α → β) (l : List α) (i : Int) :
    getIdx (l.map f) i = (getIdx l i).map f := by
  unfold getIdx
  by_cases hc : 0 ≤ i
  · rw [if_pos hc, if_pos hc]
    exact List.getElem?_map f l i.toNat
  · rw [if_neg hc, if_neg hc]
    rfl

theorem getTransitionVideo_congr {rows1 rows2 : List Row}
    (h : rows1.map rowKey = rows2.map rowKey) (a b : Int) :
    getTransitionVideo rows1 a b = getTransitionVideo rows2 a b := by
  have ha : (getIdx rows1 a).map rowKey = (getIdx rows2 a).map rowKey := by
    rw [← getIdx_map, ← getIdx_map, h]
  have hb : (getIdx rows1 b).map rowKey = (getIdx rows2 b).map rowKey := by
    rw [← getIdx_map, ← getIdx_map, h]
  unfold getTransitionVideo
  cases h1 : getIdx rows1 a with
  | none =>
      rw [h1] at ha
      cases h2 : getIdx rows2 a with
      | none => rfl
      | some ra2 => rw [h2] at ha; simp at ha
  | some ra1 =>
      rw [h1] at ha
      cases h2 : getIdx rows2 a with
      | none => rw [h2] at ha; simp at ha
      | some ra2 =>
          rw [h2] at ha
          simp only [Option.map_some', Option.some.injEq, rowKey, Prod.mk.injEq] at ha
          obtain ⟨hta, _⟩ := ha
          cases h3 : getIdx rows1 b with
          | none =>
              rw [h3] at hb
              cases h4 : getIdx rows2 b with
              | none => rfl
              | some rb2 => rw [h4] at hb; simp at hb
          | some rb1 =>
              rw [h3] at hb
              cases h4 : getIdx rows2 b with
              | none => rw [h4] at hb; simp at hb
              | some rb2 =>
                  rw [h4] at hb
                  simp only [Option.map_some', Option.some.injEq, rowKey,
                    Prod.mk.injEq] at hb
                  obtain ⟨_, hpb⟩ := hb
                  dsimp only
                  rw [hta, hpb]

theorem rowKeys_setActiveRowContent (s : AccState) (i : Int) :
    (setActiveRowContent s i).rows.map rowKey = s.rows.map rowKey := by
  apply List.ext_getElem?
  intro n
  simp only [List.getElem?_map, setActiveRowContent, getElem?_mapIdxFrom, Nat.zero_add]
  cases hg : s.rows[n]? with
  | none => rfl
  | some r => rfl

theorem rowKeys_setActiveRow (s : AccState) (i : Int) :
    (setActiveRow s i).rows.map rowKey = s.rows.map rowKey :=
  rowKeys_setActiveRowContent s i

theorem rowKeys_collapseAll (s : AccState) :
    (collapseAll s).rows.map rowKey = s.rows.map rowKey := by
  apply List.ext_getElem?
  intro n
  simp only [List.getElem?_map, collapseAll]
  cases hg : s.rows[n]? with
  | none => rfl
  | some r => rfl

/-- When no row carries usable transition data, every video lookup is null. -/
theorem gtv_none_of_absent (rows : List Row)
    (h : ∀ r ∈ rows, r.transitionsAttr = TransAttr.absent) :
    ∀ a b : Int, getTransitionVideo rows a b = none := by
  intro a b
  unfold getTransitionVideo
  cases h1 : getIdx rows a with
  | none =>
      cases h2 : getIdx rows b with
      | none => rfl
      | some rb => rfl
  | some ra =>
      have hmem : ra ∈ rows := by
        unfold getIdx at h1
        by_cases hc : 0 ≤ a
        · rw [if_pos hc] at h1
          exact List.getElem?_mem h1
        · rw [if_neg hc] at h1
          cases h1
      have habs := h ra hmem
      cases h2 : getIdx rows b with
      | none => rfl
      | some rb =>
          dsimp only
          rw [if_pos habs]

/-- The DOM state of the video-enabled accordion that both accordion
components exhibit: active index, per-row (`--active` class, `aria-expanded`)
pairs, per-media-item `--active` class. -/
def obsA (s : AccState) : Int × List (Bool × Bool) × List Bool :=
  (s.activeIndex, s.rows.map (fun r => (r.active, r.ariaExpanded)),
    s.media.map (fun it => it.active))

/-- One click event processed by the video-enabled accordion: row index and
`window.innerWidth` at click time. -/
def stepA (s : AccState) (c : Nat × Nat) : AccState :=
  handleClick s (c.1 : Int) c.2

end Matcha

namespace MatchaVariant

/-- The observable DOM state of the variant accordion. -/
def obsV (t : VState) : Int × List (Bool × Bool) × List Bool :=
  (t.activeIndex, t.rows.map (fun r => (r.active, r.ariaExpanded)), t.media)

/-- One click event processed by the variant accordion. -/
def stepV (t : VState) (c : Nat × Nat) : VState :=
  vHandleClick t (c.1 : Int) c.2

/-- One-row fixture for the variant accordion before `connectedCallback`. -/
def vinit1 : VState := ⟨[⟨false, false⟩], [false], 0⟩

end MatchaVariant

namespace MatchaVariant

@[simp] theorem vCollapseAll_rows_length (t : VState) :
    (vCollapseAll t).rows.length = t.rows.length := by
  simp [vCollapseAll]

@[simp] theorem vCollapseAll_media_length (t : VState) :
    (vCollapseAll t).media.length = t.media.length := by
  simp [vCollapseAll]

/-- Re-setting the already-active row of a consistent variant state rewrites
every class to the value it already has: the state is unchanged. -/
theorem vSetActiveRow_self (t : VState) (inv : VInv t) :
    vSetActiveRow t t.activeIndex = t := by
  obtain ⟨rowsOk, mediaOk, _⟩ := inv
  have hrows : (vSetActiveRow t t.activeIndex).rows = t.rows := by
    apply List.ext_getElem?
    intro n
    simp only [vSetActiveRow, Matcha.getElem?_mapIdxFrom, Nat.zero_add]
    cases hg : t.rows[n]? with
    | none => rfl
    | some r =>
        simp only [Option.map_some', Option.some.injEq]
        obtain ⟨h1, h2⟩ := rowsOk n r hg
        cases r
        dsimp only at h1 h2
        rw [h1, h2]
  have hmedia : (vSetActiveRow t t.activeIndex).media = t.media := by
    apply List.ext_getElem?
    intro n
    simp only [vSetActiveRow, Matcha.getElem?_mapIdxFrom, Nat.zero_add]
    cases hg : t.media[n]? with
    | none => rfl
    | some b =>
        simp only [Option.map_some', Option.some.injEq]
        rw [mediaOk n b hg]
  calc vSetActiveRow t t.activeIndex
      = ⟨(vSetActiveRow t t.activeIndex).rows, (vSetActiveRow t t.activeIndex).media,
          (vSetActiveRow t t.activeIndex).activeIndex⟩ := rfl
    _ = ⟨t.rows, t.media, t.activeIndex⟩ := by
          rw [hrows, hmedia, vSetActiveRow_activeIndex]
    _ = t := rfl

/-- Lock-step relation between the video-enabled accordion and the variant on
runs where every transition-video lookup is null. -/
structure SyncRel (s : Matcha.AccState) (t : VState) : Prop where
  hAi : s.activeIndex = t.activeIndex
  hTrans : s.isTransitioning = false
  hRows : Matcha.rowsExactly s.rows s.activeIndex
  hMedia : Matcha.mediaExactly s.media s.activeIndex
  hVRows : vRowsExactly t.rows t.activeIndex
  hVMedia : vMediaExactly t.media t.activeIndex
  hRlen : s.rows.length = t.rows.length
  hMlen : s.media.length = t.media.length
  hGtv : ∀ a b : Int, Matcha.getTransitionVideo s.rows a b = none

theorem syncRel_step (s : Matcha.AccState) (t : VState) (c : Nat × Nat)
    (rel : SyncRel s t) : SyncRel (Matcha.stepA s c) (stepV t c) := by
  obtain ⟨hAi, hTrans, hRows, hMedia, hVRows, hVMedia, hRlen, hMlen, hGtv⟩ := rel
  obtain ⟨i, w⟩ := c
  unfold Matcha.stepA stepV
  unfold Matcha.handleClick vHandleClick
  by_cases h1 : (i : Int) = t.activeIndex ∧ w < 768
  · rw [if_pos (show (i : Int) = s.activeIndex ∧ w < 768 by rw [hAi]; exact h1), if_pos h1]
    refine ⟨rfl, rfl, Matcha.rowsExactly_collapseAll _, Matcha.mediaExactly_collapseAll _,
      vRowsExactly_vCollapseAll _, vMediaExactly_vCollapseAll _, ?_, ?_, ?_⟩
    · simp only [Matcha.collapseAll_rows_length, Matcha.cancelTransition_rows,
        vCollapseAll_rows_length]
      exact hRlen
    · simp only [Matcha.collapseAll_media_length, Matcha.cancelTransition_media,
        vCollapseAll_media_length]
      exact hMlen
    · intro a b
      exact (Matcha.getTransitionVideo_congr
        (Matcha.rowKeys_collapseAll (Matcha.cancelTransition s)) a b).trans (hGtv a b)
  · rw [if_neg (show ¬((i : Int) = s.activeIndex ∧ w < 768) by rw [hAi]; exact h1),
      if_neg h1]
    dsimp only
    rw [if_neg (show ¬(s.isTransitioning = true) by rw [hTrans]; simp)]
    by_cases h2 : (i : Int) = s.activeIndex
    · rw [if_pos h2]
      refine ⟨h2.symm, hTrans, hRows, hMedia,
        vRowsExactly_vSetActiveRow t (i : Int), vMediaExactly_vSetActiveRow t (i : Int),
        ?_, ?_, hGtv⟩
      · rw [vSetActiveRow_rows_length]
        exact hRlen
      · rw [vSetActiveRow_media_length]
        exact hMlen
    · rw [if_neg h2]
      rw [hGtv s.activeIndex (i : Int)]
      refine ⟨rfl, ?_, Matcha.rowsExactly_setActiveRow s (i : Int),
        Matcha.mediaExactly_setActiveRow s (i : Int),
        vRowsExactly_vSetActiveRow t (i : Int), vMediaExactly_vSetActiveRow t (i : Int),
        ?_, ?_, ?_⟩
      · rw [Matcha.setActiveRow_isTransitioning]
        exact hTrans
      · rw [Matcha.setActiveRow_rows, Matcha.setActiveRowContent_rows_length,
          vSetActiveRow_rows_length]
        exact hRlen
      · rw [Matcha.setActiveRow_media_length, vSetActiveRow_media_length]
        exact hMlen
      · intro a b
        exact (Matcha.getTransitionVideo_congr
          (Matcha.rowKeys_setActiveRow s (i : Int)) a b).trans (hGtv a b)

theorem syncRel_connected (s0 : Matcha.AccState) (t0 : VState)
    (hT : s0.isTransitioning = false)
    (hR : s0.rows.length = t0.rows.length) (hM : s0.media.length = t0.media.length)
    (hG : ∀ a b : Int, Matcha.getTransitionVideo s0.rows a b = none) :
    SyncRel (Matcha.connected s0) (vConnected t0) := by
  unfold Matcha.connected vConnected
  refine ⟨rfl, ?_, Matcha.rowsExactly_setActiveRow s0 0, Matcha.mediaExactly_setActiveRow s0 0,
    vRowsExactly_vSetActiveRow t0 0, vMediaExactly_vSetActiveRow t0 0, ?_, ?_, ?_⟩
  · rw [Matcha.setActiveRow_isTransitioning]
    exact hT
  · rw [Matcha.setActiveRow_rows, Matcha.setActiveRowContent_rows_length,
      vSetActiveRow_rows_length]
    exact hR
  · rw [Matcha.setActiveRow_media_length, vSetActiveRow_media_length]
    exact hM
  · intro a b
    exact (Matcha.getTransitionVideo_congr
      (Matcha.rowKeys_setActiveRow s0 0) a b).trans (hG a b)

theorem syncRel_fold (clicks : List (Nat × Nat)) (s : Matcha.AccState) (t : VState)
    (rel : SyncRel s t) :
    SyncRel (clicks.foldl Matcha.stepA s) (clicks.foldl stepV t) := by
  induction clicks generalizing s t with
  | nil => exact rel
  | cons c cs ih => exact ih _ _ (syncRel_step s t c rel)

theorem obs_eq_of_syncRel (s : Matcha.AccState) (t : VState) (rel : SyncRel s t) :
    Matcha.obsA s = obsV t := by
  obtain ⟨hAi, _, hRows, hMedia, hVRows, hVMedia, hRlen, hMlen, _⟩ := rel
  have hrows : s.rows.map (fun r => (r.active, r.ariaExpanded)) =
      t.rows.map (fun r => (r.active, r.ariaExpanded)) := by
    apply List.ext_getElem?
    intro n
    rw [List.getElem?_map, List.getElem?_map]
    cases hg1 : s.rows[n]? with
    | none =>
        have hle : s.rows.length ≤ n := List.getElem?_eq_none_iff.1 hg1
        have hg2 : t.rows[n]? = none := List.getElem?_eq_none_iff.2 (by omega)
        rw [hg2]
        rfl
    | some r =>
        have hlt : n < s.rows.length := by
          by_contra hcon
          have hnone : s.rows[n]? = none := List.getElem?_eq_none_iff.2 (by omega)
          rw [hnone] at hg1
          cases hg1
        obtain ⟨r2, hg2⟩ : ∃ r2, t.rows[n]? = some r2 :=
          ⟨_, List.getElem?_eq_getElem (by omega)⟩
        rw [hg2]
        simp only [Option.map_some', Option.some.injEq]
        obtain ⟨h1, h2⟩ := hRows n r hg1
        obtain ⟨h3, h4⟩ := hVRows n r2 hg2
        rw [h1, h2, h3, h4, hAi]
  have hmedia : s.media.map (fun it => it.active) = t.media := by
    apply List.ext_getElem?
    intro n
    rw [List.getElem?_map]
    cases hg1 : s.media[n]? with
    | none =>
        have hle : s.media.length ≤ n := List.getElem?_eq_none_iff.1 hg1
        have hg2 : t.media[n]? = none := List.getElem?_eq_none_iff.2 (by omega)
        rw [hg2]
        rfl
    | some it =>
        have hlt : n < s.media.length := by
          by_contra hcon
          have hnone : s.media[n]? = none := List.getElem?_eq_none_iff.2 (by omega)
          rw [hnone] at hg1
          cases hg1
        obtain ⟨b2, hg2⟩ : ∃ b2, t.media[n]? = some b2 :=
          ⟨_, List.getElem?_eq_getElem (by omega)⟩
        rw [hg2]
        simp only [Option.map_some', Option.some.injEq]
        rw [hMedia n it hg1, hVMedia n b2 hg2, hAi]
  unfold Matcha.obsA obsV
  rw [hrows, hmedia, hAi]

end MatchaVariant

namespace Matcha

theorem mediaExactly_finishMediaSwap (s : AccState) (t : Int) :
    mediaExactly (finishMediaSwap s t).media t := by
  intro j it h
  simp only [finishMediaSwap, getElem?_mapIdxFrom, Nat.zero_add] at h
  cases hg : s.media[j]? with
  | none => rw [hg] at h; simp at h
  | some it0 =>
      rw [hg] at h
      simp only [Option.map_some', Option.some.injEq] at h
      subst h
      rfl

theorem transitionStyle_finishMediaSwap (s : AccState) (t : Int) :
    ∀ (j : Nat) (it : MediaItem), (finishMediaSwap s t).media[j]? = some it →
      it.transitionStyle = "none" := by
  intro j it h
  simp only [finishMediaSwap, getElem?_mapIdxFrom, Nat.zero_add] at h
  cases hg : s.media[j]? with
  | none => rw [hg] at h; simp at h
  | some it0 =>
      rw [hg] at h
      simp only [Option.map_some', Option.some.injEq] at h
      subst h
      rfl

@[simp] theorem finishMediaSwap_media_length (s : AccState) (t : Int) :
    (finishMediaSwap s t).media.length = s.media.length := by
  simp [finishMediaSwap, length_mapIdxFrom]

@[simp] theorem finishMediaSwap_layoutFlushes (s : AccState) (t : Int) :
    (finishMediaSwap s t).layoutFlushes = s.layoutFlushes := rfl

theorem forceRepaint_layoutFlushes (s : AccState) (h : s.media ≠ []) :
    (forceRepaint s).layoutFlushes = s.layoutFlushes + 1 := by
  unfold forceRepaint
  rw [if_neg (by simpa using h)]

end Matcha

namespace Matcha

/-- C6: the transition-video lookup from row `a` to row `b` returns the URL
stored in row `a`'s `data-transitions` JSON mapping under row `b`'s product
identifier, and returns null whenever either index is out of range (`getIdx`
is `none` exactly for out-of-range indexes), the transitions attribute or
target product id is absent (or falsy), the JSON is malformed, or the mapping
has no entry or a falsy entry for that identifier. -/
theorem c6_lookup_characterisation (rows : List Row) (a b : Int) :
    (∀ i : Int, getIdx rows i = none ↔ ¬(0 ≤ i ∧ i.toNat < rows.length)) ∧
    (∀ (ra rb : Row) (m : List (String × String)) (pid url : String),
      getIdx rows a = some ra → getIdx rows b = some rb →
      ra.transitionsAttr = TransAttr.parsed m → rb.productId = some pid →
      pid ≠ "" → lookupMap m pid = some url → url ≠ "" →
      getTransitionVideo rows a b = some url) ∧
    (getIdx rows a = none → getTransitionVideo rows a b = none) ∧
    (getIdx rows b = none → getTransitionVideo rows a b = none) ∧
    (∀ ra : Row, getIdx rows a = some ra → ra.transitionsAttr = TransAttr.absent →
      getTransitionVideo rows a b = none) ∧
    (∀ ra : Row, getIdx rows a = some ra → ra.transitionsAttr = TransAttr.malformed →
      getTransitionVideo rows a b = none) ∧
    (∀ rb : Row, getIdx rows b = some rb →
      (rb.productId = none ∨ rb.productId = some "") →
      getTransitionVideo rows a b = none) ∧
    (∀ (ra rb : Row) (m : List (String × String)) (pid : String),
      getIdx rows a = some ra → getIdx rows b = some rb →
      ra.transitionsAttr = TransAttr.parsed m → rb.productId = some pid →
      (lookupMap m pid = none ∨ lookupMap m pid = some "") →
      getTransitionVideo rows a b = none) := by
  refine ⟨?_, ?_, ?_, ?_, ?_, ?_, ?_, ?_⟩
  · intro i
    unfold getIdx
    by_cases hc : 0 ≤ i
    · rw [if_pos hc, List.getElem?_eq_none_iff]
      omega
    · rw [if_neg hc]
      exact ⟨fun _ h => hc h.1, fun _ => rfl⟩
  · intro ra rb m pid url hga hgb hm hp hpne hlk hune
    unfold getTransitionVideo
    rw [hga, hgb]
    dsimp only
    rw [hm, hp]
    rw [if_neg (show ¬(TransAttr.parsed m = TransAttr.absent) by intro hcon; cases hcon)]
    dsimp only
    rw [if_neg hpne]
    rw [hlk]
    unfold orNull
    dsimp only
    rw [if_neg hune]
  · intro h
    unfold getTransitionVideo
    cases h2 : getIdx rows b with
    | none => rw [h]
    | some rb => rw [h]
  · intro h
    unfold getTransitionVideo
    cases h2 : getIdx rows a with
    | none => rw [h]
    | some ra => rw [h]
  · intro ra hga habs
    unfold getTransitionVideo
    cases h2 : getIdx rows b with
    | none => rw [hga]
    | some rb =>
        rw [hga]
        dsimp only
        rw [if_pos habs]
  · intro ra hga hmal
    unfold getTransitionVideo
    cases h2 : getIdx rows b with
    | none => rw [hga]
    | some rb =>
        rw [hga]
        dsimp only
        rw [hmal]
        rw [if_neg (show ¬(TransAttr.malformed = TransAttr.absent) by
          intro hcon; cases hcon)]
        dsimp only
        cases hp : rb.productId with
        | none => rfl
        | some pid =>
            dsimp only
            by_cases hpe : pid = ""
            · rw [if_pos hpe]
            · rw [if_neg hpe]
  · intro rb hgb hp
    unfold getTransitionVideo
    cases h2 : getIdx rows a with
    | none => rw [hgb]
    | some ra =>
        rw [hgb]
        dsimp only
        by_cases habs : ra.transitionsAttr = TransAttr.absent
        · rw [if_pos habs]
        · rw [if_neg habs]
          rcases hp with hp | hp
          · rw [hp]
          · rw [hp]
            dsimp only
            rw [if_pos rfl]
  · intro ra rb m pid hga hgb hm hp hlkor
    unfold getTransitionVideo
    rw [hga, hgb]
    dsimp only
    rw [hm, hp]
    rw [if_neg (show ¬(TransAttr.parsed m = TransAttr.absent) by intro hcon; cases hcon)]
    dsimp only
    by_cases hpe : pid = ""
    · rw [if_pos hpe]
    · rw [if_neg hpe]
      rcases hlkor with hlk | hlk
      · rw [hlk]
        rfl
      · rw [hlk]
        rfl

/-- C6 witness: on the three-row fixture, the lookup from row 0 to row 1
returns the mapped URL, and the lookup from row 1 to row 0 (whose product id
has no entry in row 1's map) returns null. -/
theorem c6_witness :
    getTransitionVideo rows3 0 1 = some "a-to-b.mp4" ∧
    getTransitionVideo rows3 1 0 = none :=
  ⟨(c6_lookup_characterisation rows3 0 1).2.1
      ⟨false, false, TransAttr.parsed [("p1", "a-to-b.mp4")], some "p0"⟩
      ⟨false, false, TransAttr.parsed [("p2", "b-to-c.mp4")], some "p1"⟩
      [("p1", "a-to-b.mp4")] "p1" "a-to-b.mp4"
      (by decide) (by decide) rfl rfl (by decide) (by decide) (by decide),
   (c6_lookup_characterisation rows3 1 0).2.2.2.2.2.2.2
      ⟨false, false, TransAttr.parsed [("p2", "b-to-c.mp4")], some "p1"⟩
      ⟨false, false, TransAttr.parsed [("p1", "a-to-b.mp4")], some "p0"⟩
      [("p2", "b-to-c.mp4")] "p0"
      (by decide) (by decide) rfl rfl (Or.inl (by decide))⟩

end Matcha

namespace Cards

/-- An idle carousel track fixture. -/
def track0 : Track := ⟨0, 1000, 400, "", "", none, false, false⟩

/-- The carousel component before any pointer event. -/
def car0 : CarouselState := ⟨track0, false, 0, 0, false⟩

/-- The carousel mid-drag after a primary-button pointer-down at x = 100. -/
def carDrag : CarouselState := onPointerDown car0 0 100 7

/-- C7: a non-primary-button pointer-down changes nothing; a primary-button
pointer-down records the starting cursor X and scroll offset, captures the
pointer and switches cursor / scroll-snap styling; every pointer-move while
dragging sets the scroll offset to exactly (recorded offset − (current X −
starting X)); pointer-up / pointer-cancel ends the drag, releases the
capture and restores cursor and scroll-snap styling. -/
theorem c7_drag_to_scroll :
    (∀ (s : CarouselState) (b : Nat) (x pid : Int), b ≠ 0 →
      onPointerDown s b x pid = s) ∧
    (∀ (s : CarouselState) (x0 pid : Int),
      (onPointerDown s 0 x0 pid).isDragging = true ∧
      (onPointerDown s 0 x0 pid).startX = x0 ∧
      (onPointerDown s 0 x0 pid).scrollStart = s.track.scrollLeft ∧
      (onPointerDown s 0 x0 pid).track.capturedPointer = some pid ∧
      (onPointerDown s 0 x0 pid).track.cursor = "grabbing" ∧
      (onPointerDown s 0 x0 pid).track.scrollSnapType = "none") ∧
    (∀ (s : CarouselState) (x : Int), s.isDragging = true →
      (onPointerMove s x).track.scrollLeft = s.scrollStart - (x - s.startX)) ∧
    (∀ (s : CarouselState) (pid : Int), s.isDragging = true →
      (onPointerUp s pid).isDragging = false ∧
      (onPointerUp s pid).track.capturedPointer = none ∧
      (onPointerUp s pid).track.cursor = "" ∧
      (onPointerUp s pid).track.scrollSnapType = "") := by
  refine ⟨?_, ?_, ?_, ?_⟩
  · intro s b x pid hb
    unfold onPointerDown
    rw [if_pos hb]
  · intro s x0 pid
    unfold onPointerDown
    rw [if_neg (by simp)]
    exact ⟨rfl, rfl, rfl, rfl, rfl, rfl⟩
  · intro s x hd
    unfold onPointerMove
    rw [if_pos hd]
  · intro s pid hd
    unfold onPointerUp
    rw [if_pos hd]
    exact ⟨rfl, rfl, rfl, rfl⟩

/-- C7 witness: on the concrete fixture, a right-button press is ignored, a
drag move to x = 130 sets the offset to the recorded offset minus 30, and
pointer-up restores everything. -/
theorem c7_witness :
    onPointerDown car0 1 100 7 = car0 ∧
    (onPointerMove carDrag 130).track.scrollLeft =
      carDrag.scrollStart - (130 - carDrag.startX) ∧
    ((onPointerUp carDrag 7).isDragging = false ∧
      (onPointerUp carDrag 7).track.capturedPointer = none ∧
      (onPointerUp carDrag 7).track.cursor = "" ∧
      (onPointerUp carDrag 7).track.scrollSnapType = "") :=
  ⟨c7_drag_to_scroll.1 car0 1 100 7 (by decide),
   c7_drag_to_scroll.2.2.1 carDrag 130 (by decide),
   c7_drag_to_scroll.2.2.2 carDrag 7 (by decide)⟩

/-- C8: after `#setArrowsForPosition(s)` on a track with client width `C` and
scroll width `W`, the previous arrow is hidden iff `s ≤ 1` and the next arrow
is hidden iff `s + C ≥ W − 1`; in particular the previous arrow is hidden at
`s = 0` and shown once `s > 1`. -/
theorem c8_arrow_visibility (t : Track) (s : Int) :
    ((setArrowsForPosition t s).prevHidden = true ↔ s ≤ 1) ∧
    ((setArrowsForPosition t s).nextHidden = true ↔
      s + t.clientWidth ≥ t.scrollWidth - 1) ∧
    (setArrowsForPosition t 0).prevHidden = true ∧
    (1 < s → (setArrowsForPosition t s).prevHidden = false) := by
  refine ⟨?_, ?_, ?_, ?_⟩
  · exact decide_eq_true_iff
  · exact decide_eq_true_iff
  · rfl
  · intro h
    exact decide_eq_false (by omega)

/-- C8 witness: on the concrete track (scroll width 1000, client width 400),
the previous arrow is hidden at offset 0, shown at offset 5, and the next
arrow is hidden at offset 700. -/
theorem c8_witness :
    (setArrowsForPosition track0 0).prevHidden = true ∧
    (setArrowsForPosition track0 5).prevHidden = false ∧
    (setArrowsForPosition track0 700).nextHidden = true :=
  ⟨(c8_arrow_visibility track0 0).2.2.1,
   (c8_arrow_visibility track0 5).2.2.2 (by decide),
   (c8_arrow_visibility track0 700).2.1.mpr (by decide)⟩

end Cards

namespace Matcha

/-- C10: the video `ended` handler runs the completion path unconditionally
(it never checks `#isTransitioning`, unlike the `error` handler, which
returns early when idle); delivered while idle (pending target `-1`) it runs
`#finishTransition(-1)`: every media item's active class is removed, the
video is reset, the active index becomes `-1`, and row classes are left as
they were. -/
theorem c10_ended_unconditional :
    (∀ s : AccState, handleVideoEnded s = finishTransition s s.pendingTargetIndex) ∧
    (∀ s : AccState, s.isTransitioning = false → handleVideoError s = s) ∧
    (∀ (s : AccState) (v : VideoEl), s.pendingTargetIndex = -1 → s.video = some v →
      (handleVideoEnded s).activeIndex = -1 ∧
      (handleVideoEnded s).rows = s.rows ∧
      (∀ (j : Nat) (it : MediaItem), (handleVideoEnded s).media[j]? = some it →
        it.active = false) ∧
      (handleVideoEnded s).video = some (resetVideoEl v) ∧
      (handleVideoEnded s).isTransitioning = false) := by
  refine ⟨fun s => rfl, ?_, ?_⟩
  · intro s h
    unfold handleVideoError
    rw [if_neg (by rw [h]; simp)]
  · intro s v hp hv
    unfold handleVideoEnded
    rw [hp]
    refine ⟨rfl, finishTransition_rows s (-1), ?_, ?_, rfl⟩
    · intro j it h
      have := mediaExactly_finishTransition s (-1) j it h
      have hj : ¬((j : Int) = -1) := by omega
      rw [this]
      simp [hj]
    · rw [finishTransition_video, hv]
      rfl

/-- C10 witness: delivering `ended` to the settled three-row accordion (idle,
pending target `-1`) wipes every media-active class, resets the video and
sets the active index to `-1` while rows stay as they were; the `error`
handler on the same state is a no-op. -/
theorem c10_witness :
    handleVideoError (connected init3) = connected init3 ∧
    ((handleVideoEnded (connected init3)).activeIndex = -1 ∧
      (handleVideoEnded (connected init3)).rows = (connected init3).rows ∧
      (∀ (j : Nat) (it : MediaItem),
        (handleVideoEnded (connected init3)).media[j]? = some it → it.active = false) ∧
      (handleVideoEnded (connected init3)).video = some (resetVideoEl initVideo) ∧
      (handleVideoEnded (connected init3)).isTransitioning = false) :=
  ⟨c10_ended_unconditional.2.1 (connected init3) rfl,
   c10_ended_unconditional.2.2 (connected init3) initVideo rfl rfl⟩

end Matcha

namespace Matcha

/-- C4: when `ended` fires during a transition with pending target `B`, the
media item at `B` becomes the only active one with CSS transitions bypassed
(`transition:'none'` on every item) and a layout flush is forced while the
video element is still untouched; only then is the video hidden, paused, its
src removed and reloaded; afterwards transition styling is restored and the
final state has the transitioning flag false, the pending target `-1`, and
active index `B`. -/
theorem c4_finish_sequence (s : AccState) (B : Int) (v : VideoEl)
    (hT : s.isTransitioning = true) (hp : s.pendingTargetIndex = B)
    (h0 : 0 ≤ B) (hlt : B.toNat < s.media.length) (hv : s.video = some v) :
    (mediaExactly (finishMediaSwap s B).media B ∧
      (∀ (j : Nat) (it : MediaItem), (finishMediaSwap s B).media[j]? = some it →
        it.transitionStyle = "none") ∧
      (finishMediaSwap s B).video = s.video) ∧
    ((forceRepaint (finishMediaSwap s B)).layoutFlushes = s.layoutFlushes + 1 ∧
      (forceRepaint (finishMediaSwap s B)).video = s.video) ∧
    (hideVideo (forceRepaint (finishMediaSwap s B))).video = some (resetVideoEl v) ∧
    handleVideoEnded s =
      { restoreTransitions (hideVideo (forceRepaint (finishMediaSwap s B))) with
          isTransitioning := false
          pendingTargetIndex := -1
          activeIndex := B } ∧
    (mediaExactly (handleVideoEnded s).media B ∧
      (∀ (j : Nat) (it : MediaItem), (handleVideoEnded s).media[j]? = some it →
        it.transitionStyle = "") ∧
      (handleVideoEnded s).isTransitioning = false ∧
      (handleVideoEnded s).pendingTargetIndex = -1 ∧
      (handleVideoEnded s).activeIndex = B ∧
      (handleVideoEnded s).video = some (resetVideoEl v)) := by
  have hmne : (finishMediaSwap s B).media ≠ [] := by
    intro hcon
    have hlen : (finishMediaSwap s B).media.length = s.media.length :=
      finishMediaSwap_media_length s B
    rw [hcon] at hlen
    simp at hlen
    omega
  refine ⟨⟨mediaExactly_finishMediaSwap s B, transitionStyle_finishMediaSwap s B, rfl⟩,
    ⟨?_, ?_⟩, ?_, ?_, ?_⟩
  · rw [forceRepaint_layoutFlushes _ hmne, finishMediaSwap_layoutFlushes]
  · rw [forceRepaint_video, finishMediaSwap_video]
  · rw [hideVideo, forceRepaint_video, finishMediaSwap_video, hv]
    rfl
  · unfold handleVideoEnded
    rw [hp]
    rfl
  · refine ⟨?_, ?_, rfl, rfl, ?_, ?_⟩
    · unfold handleVideoEnded
      rw [hp]
      exact mediaExactly_finishTransition s B
    · unfold handleVideoEnded
      rw [hp]
      exact transitionStyle_finishTransition s B
    · unfold handleVideoEnded
      rw [hp]
      rfl
    · unfold handleVideoEnded
      rw [hp, finishTransition_video, hv]
      rfl

/-- C4 witness: the finish sequence runs as stated on the concrete
mid-transition state `sAB` (pending target 1, video playing). -/
theorem c4_witness :
    (mediaExactly (finishMediaSwap sAB 1).media 1 ∧
      (∀ (j : Nat) (it : MediaItem), (finishMediaSwap sAB 1).media[j]? = some it →
        it.transitionStyle = "none") ∧
      (finishMediaSwap sAB 1).video = sAB.video) ∧
    ((forceRepaint (finishMediaSwap sAB 1)).layoutFlushes = sAB.layoutFlushes + 1 ∧
      (forceRepaint (finishMediaSwap sAB 1)).video = sAB.video) ∧
    (hideVideo (forceRepaint (finishMediaSwap sAB 1))).video = some (resetVideoEl vAB) ∧
    handleVideoEnded sAB =
      { restoreTransitions (hideVideo (forceRepaint (finishMediaSwap sAB 1))) with
          isTransitioning := false
          pendingTargetIndex := -1
          activeIndex := 1 } ∧
    (mediaExactly (handleVideoEnded sAB).media 1 ∧
      (∀ (j : Nat) (it : MediaItem), (handleVideoEnded sAB).media[j]? = some it →
        it.transitionStyle = "") ∧
      (handleVideoEnded sAB).isTransitioning = false ∧
      (handleVideoEnded sAB).pendingTargetIndex = -1 ∧
      (handleVideoEnded sAB).activeIndex = 1 ∧
      (handleVideoEnded sAB).video = some (resetVideoEl vAB)) :=
  c4_finish_sequence sAB 1 vAB (by decide) (by decide) (by decide) (by decide) (by decide)

/-- C5: when the video `error` event fires during a transition with pending
target `B` (the `play()` rejection callback runs the identical code), the
transition is cancelled — video hidden, paused, src removed — the pending
state is cleared and the component falls back to an immediate crossfade:
idle, active index `B`, row `B` and media item `B` active, with the same
row/media/index observables a direct no-video `#setActiveRow(B)` click path
would have produced. -/
theorem c5_error_fallback (s : AccState) (B : Int) (v : VideoEl)
    (hT : s.isTransitioning = true) (hp : s.pendingTargetIndex = B)
    (hv : s.video = some v) :
    (handleVideoError s).isTransitioning = false ∧
    (handleVideoError s).pendingTargetIndex = -1 ∧
    (handleVideoError s).activeIndex = B ∧
    rowsExactly (handleVideoError s).rows B ∧
    mediaExactly (handleVideoError s).media B ∧
    (handleVideoError s).video = some (resetVideoEl v) ∧
    handleVideoError s = playRejected s B ∧
    ((handleVideoError s).activeIndex,
        (handleVideoError s).rows.map (fun r => (r.active, r.ariaExpanded)),
        (handleVideoError s).media.map (fun it => it.active)) =
      ((setActiveRow s B).activeIndex,
        (setActiveRow s B).rows.map (fun r => (r.active, r.ariaExpanded)),
        (setActiveRow s B).media.map (fun it => it.active)) := by
  have hstep : handleVideoError s = setActiveRow (cancelTransition s) B := by
    unfold handleVideoError
    rw [if_pos hT]
    dsimp only
    rw [hp]
  rw [hstep]
  refine ⟨rfl, rfl, rfl, rowsExactly_setActiveRow _ B, mediaExactly_setActiveRow _ B,
    ?_, ?_, rfl⟩
  · rw [setActiveRow_video, cancelTransition_video, hv]
    rfl
  · unfold playRejected
    rfl

/-- C5 witness: the `error` handler on the concrete mid-transition state
`sAB` falls back to a crossfade to row 1 exactly as stated. -/
theorem c5_witness :
    (handleVideoError sAB).isTransitioning = false ∧
    (handleVideoError sAB).pendingTargetIndex = -1 ∧
    (handleVideoError sAB).activeIndex = 1 ∧
    rowsExactly (handleVideoError sAB).rows 1 ∧
    mediaExactly (handleVideoError sAB).media 1 ∧
    (handleVideoError sAB).video = some (resetVideoEl vAB) ∧
    handleVideoError sAB = playRejected sAB 1 ∧
    ((handleVideoError sAB).activeIndex,
        (handleVideoError sAB).rows.map (fun r => (r.active, r.ariaExpanded)),
        (handleVideoError sAB).media.map (fun it => it.active)) =
      ((setActiveRow sAB 1).activeIndex,
        (setActiveRow sAB 1).rows.map (fun r => (r.active, r.ariaExpanded)),
        (setActiveRow sAB 1).media.map (fun it => it.active)) :=
  c5_error_fallback sAB 1 vAB (by decide) (by decide) (by decide)

end Matcha

namespace Matcha

/-- C3 (amended): clicking the currently active row on a wide viewport
(width ≥ 768) in a settled (non-transitioning) state changes nothing at all,
in both accordion components; if a video transition is in flight, the same
click instead cancels it — exactly `#cancelTransition()`, which resets the
video element and clears the pending state but leaves the active index, row
classes and media classes unchanged. -/
theorem c3_active_click_wide :
    (∀ (s : AccState) (i : Int) (w : Nat), s.isTransitioning = false →
      i = s.activeIndex → 768 ≤ w → handleClick s i w = s) ∧
    (∀ (s : AccState) (i : Int) (w : Nat), s.isTransitioning = true →
      i = s.activeIndex → 768 ≤ w → handleClick s i w = cancelTransition s) ∧
    (∀ (t0 t : MatchaVariant.VState) (i : Int) (w : Nat), MatchaVariant.VReach t0 t →
      i = t.activeIndex → 768 ≤ w → MatchaVariant.vHandleClick t i w = t) := by
  refine ⟨?_, ?_, ?_⟩
  · intro s i w hT hi hw
    unfold handleClick
    rw [if_neg (fun h => absurd h.2 (by omega))]
    rw [if_neg (show ¬(s.isTransitioning = true) by rw [hT]; simp)]
    rw [if_pos hi]
  · intro s i w hT hi hw
    unfold handleClick
    rw [if_neg (fun h => absurd h.2 (by omega))]
    rw [if_pos hT]
    rw [if_pos (show i = (cancelTransition s).activeIndex by
      rw [cancelTransition_activeIndex]; exact hi)]
  · intro t0 t i w hreach hi hw
    unfold MatchaVariant.vHandleClick
    rw [if_neg (fun h => absurd h.2 (by omega))]
    rw [hi]
    exact MatchaVariant.vSetActiveRow_self t (MatchaVariant.vInv_of_reach hreach)

/-- C3 witness: clicking the active row at width 1024 is a no-op on the
settled one-row accordion and on the mounted variant, and cancels the video
on the concrete mid-transition state `sAB`. -/
theorem c3_witness :
    handleClick (connected init1) 0 1024 = connected init1 ∧
    handleClick sAB 1 1024 = cancelTransition sAB ∧
    MatchaVariant.vHandleClick (MatchaVariant.vConnected MatchaVariant.vinit1) 0 1024 =
      MatchaVariant.vConnected MatchaVariant.vinit1 :=
  ⟨c3_active_click_wide.1 (connected init1) 0 1024 rfl (by decide) (by decide),
   c3_active_click_wide.2.1 sAB 1 1024 (by decide) (by decide) (by decide),
   c3_active_click_wide.2.2 MatchaVariant.vinit1 _ 0 1024
     (MatchaVariant.VReach.mount (by decide)) (by decide) (by decide)⟩

/-- C3 counterexample: in the reachable mid-transition state `sAB`
(transitioning to row 1 with the video playing, active index already 1),
clicking row 1 — the currently active row — at width 1024 changes the video
element's state: the playing class is dropped, the element is paused and its
src removed.  The claim's "for every state ... the video element's state
[is] unchanged" is therefore false. -/
theorem c3_counterexample :
    sAB.activeIndex = 1 ∧ sAB.isTransitioning = true ∧
    sAB.video = some ⟨some "a-to-b.mp4", true, false, 0⟩ ∧
    (handleClick sAB 1 1024).video = some ⟨none, false, true, 0⟩ ∧
    (handleClick sAB 1 1024).video ≠ sAB.video := by
  refine ⟨by decide, by decide, by decide, by decide, by decide⟩

/-- C1 (amended): a click on row `C` while a transition towards `B` is in
flight first cancels the in-flight video (element reset, paused, pending
cleared) and then evaluates the click as a fresh transition request from the
current active index — which `#setActiveRowContent` already committed to the
half-completed target `B` when the transition started — so the video lookup
and crossfade use `B`, not the pre-transition row, as the from-row: with no
`B → C` video the result is an immediate crossfade to `C`; with a `B → C`
video the component starts playing exactly that URL with pending target
`C`. -/
theorem c1_click_during_transition (s : AccState) (B C : Int) (w : Nat)
    (hT : s.isTransitioning = true) (hai : s.activeIndex = B)
    (hp : s.pendingTargetIndex = B) (hC : C ≠ B) :
    (getTransitionVideo s.rows B C = none →
      (handleClick s C w).isTransitioning = false ∧
      (handleClick s C w).pendingTargetIndex = -1 ∧
      (handleClick s C w).activeIndex = C ∧
      rowsExactly (handleClick s C w).rows C ∧
      mediaExactly (handleClick s C w).media C ∧
      (∀ v : VideoEl, s.video = some v →
        (handleClick s C w).video = some (resetVideoEl v))) ∧
    (∀ (url : String) (v : VideoEl), getTransitionVideo s.rows B C = some url →
      s.video = some v →
      (handleClick s C w).isTransitioning = true ∧
      (handleClick s C w).pendingTargetIndex = C ∧
      (handleClick s C w).activeIndex = C ∧
      rowsExactly (handleClick s C w).rows C ∧
      (handleClick s C w).media = s.media ∧
      (handleClick s C w).video = some ⟨some url, true, false, 0⟩) := by
  have cond1 : ¬(C = s.activeIndex ∧ w < 768) := by
    intro h
    exact hC (by rw [h.1, hai])
  have cond2 : ¬(C = (cancelTransition s).activeIndex) := by
    rw [cancelTransition_activeIndex, hai]
    exact hC
  constructor
  · intro hg
    have hstep : handleClick s C w = setActiveRow (cancelTransition s) C := by
      unfold handleClick
      rw [if_neg cond1, if_pos hT, if_neg cond2]
      dsimp only
      rw [cancelTransition_rows, cancelTransition_activeIndex, hai, hg]
    rw [hstep]
    refine ⟨rfl, rfl, rfl, rowsExactly_setActiveRow _ C, mediaExactly_setActiveRow _ C, ?_⟩
    intro v hv
    rw [setActiveRow_video, cancelTransition_video, hv]
    rfl
  · intro url v hg hv
    have hstep : handleClick s C w = playTransition (cancelTransition s) B C url := by
      unfold handleClick
      rw [if_neg cond1, if_pos hT, if_neg cond2]
      dsimp only
      rw [cancelTransition_rows, cancelTransition_activeIndex, hai, hg]
    have hplay : playTransition (cancelTransition s) B C url =
        { setActiveRowContent
            { cancelTransition s with isTransitioning := true, pendingTargetIndex := C } C with
            video := some ⟨some url, true, false, 0⟩ } := by
      unfold playTransition
      rw [cancelTransition_video, hv]
      rfl
    rw [hstep, hplay]
    exact ⟨rfl, rfl, rfl, rowsExactly_setActiveRowContent _ C, rfl, rfl⟩

/-- C1 witness: in the concrete mid-transition state `sAB` (transitioning
from row 0 towards row 1), a click on row 2 starts the `b-to-c.mp4` video —
the one stored in row 1's map — with pending target 2. -/
theorem c1_witness :
    (handleClick sAB 2 1024).isTransitioning = true ∧
    (handleClick sAB 2 1024).pendingTargetIndex = 2 ∧
    (handleClick sAB 2 1024).activeIndex = 2 ∧
    rowsExactly (handleClick sAB 2 1024).rows 2 ∧
    (handleClick sAB 2 1024).media = sAB.media ∧
    (handleClick sAB 2 1024).video = some ⟨some "b-to-c.mp4", true, false, 0⟩ :=
  (c1_click_during_transition sAB 1 2 1024 (by decide) (by decide) (by decide)
      (by decide)).2 "b-to-c.mp4" vAB (by decide) (by decide)

/-- C1 counterexample: in the reachable state `sAB` (a transition from row 0
to row 1 is in flight), row 0's transition map has no entry for row 2's
product id — a lookup from the previously-committed row 0 yields null, so
under the claim a click on row 2 would degrade to a plain crossfade with no
video.  The code instead starts the `b-to-c.mp4` video taken from row 1
(the half-completed target): the claim is false. -/
theorem c1_counterexample :
    sAB.isTransitioning = true ∧
    getTransitionVideo sAB.rows 0 2 = none ∧
    (handleClick sAB 2 1024).isTransitioning = true ∧
    (handleClick sAB 2 1024).video = some ⟨some "b-to-c.mp4", true, false, 0⟩ := by
  refine ⟨by decide, by decide, by decide, by decide⟩

end Matcha

namespace Matcha

/-- C2 (amended): every reachable settled (non-transitioning) state of the
video-enabled accordion, and every reachable state of the video-free
variant, carries at most one row with the active class, `aria-expanded`
always mirrors the row's active class, zero rows are active exactly in the
collapsed (`#activeIndex = -1`) state, and at most one media item carries the
media-active class.  Every operation reached through the event handlers
preserves this. -/
theorem c2_settled_at_most_one :
    (∀ (s0 s : AccState), Reach s0 s → s.isTransitioning = false → AccSettledOk s) ∧
    (∀ (t0 t : MatchaVariant.VState), MatchaVariant.VReach t0 t →
      MatchaVariant.VSettledOk t) :=
  ⟨fun _ s h _ => settledOk_of_inv s (accInv_of_reach h),
   fun _ t h => MatchaVariant.vSettledOk_of_inv t (MatchaVariant.vInv_of_reach h)⟩

/-- C2 witness: the freshly mounted one-row accordion and one-row variant
satisfy the settled-state shape. -/
theorem c2_witness :
    AccSettledOk (connected init1) ∧
    MatchaVariant.VSettledOk (MatchaVariant.vConnected MatchaVariant.vinit1) :=
  ⟨c2_settled_at_most_one.1 init1 (connected init1)
      (Reach.mount (by decide) rfl rfl) rfl,
   c2_settled_at_most_one.2 MatchaVariant.vinit1 _
      (MatchaVariant.VReach.mount (by decide))⟩

/-- C2 counterexample: clicking the active row 0 of the mounted one-row
accordion at width 375 (the narrow-viewport collapse) reaches a settled
state in which the single media item does not carry the media-active class —
zero media items are active, refuting the claim's "exactly one media item
carries the media-active class" in every reachable settled state. -/
theorem c2_counterexample :
    Reach init1 (handleClick (connected init1) 0 375) ∧
    (handleClick (connected init1) 0 375).isTransitioning = false ∧
    (handleClick (connected init1) 0 375).media = [⟨false, ""⟩] ∧
    (handleClick (connected init1) 0 375).rows =
      [⟨false, false, TransAttr.absent, some "p"⟩] :=
  ⟨Reach.click 0 375 (Reach.mount (by decide) rfl rfl) (by decide),
   by decide, by decide, by decide⟩

/-- C9: on any click sequence during which every transition-video lookup is
null, the video-enabled accordion and the video-free variant — mounted on
markup with the same number of rows and media items and observing the same
viewport widths — exhibit identical observable state after each click: the
same active index, the same per-row active classes and `aria-expanded`
values, the same per-media-item active classes, including the
narrow-viewport collapse behaviour. -/
theorem c9_no_video_equivalence (s0 : AccState) (t0 : MatchaVariant.VState)
    (hT : s0.isTransitioning = false)
    (hR : s0.rows.length = t0.rows.length)
    (hM : s0.media.length = t0.media.length)
    (hG : ∀ a b : Int, getTransitionVideo s0.rows a b = none) :
    ∀ clicks : List (Nat × Nat),
      obsA (clicks.foldl stepA (connected s0)) =
        MatchaVariant.obsV (clicks.foldl MatchaVariant.stepV
          (MatchaVariant.vConnected t0)) :=
  fun clicks =>
    MatchaVariant.obs_eq_of_syncRel _ _
      (MatchaVariant.syncRel_fold clicks _ _
        (MatchaVariant.syncRel_connected s0 t0 hT hR hM hG))

/-- C9 witness: a concrete two-click sequence (a narrow-viewport collapse
click followed by a wide-viewport click) on the one-row fixtures, which have
no transition data, yields identical observables in both components. -/
theorem c9_witness :
    obsA ([((0 : Nat), (375 : Nat)), ((0 : Nat), (1024 : Nat))].foldl stepA
        (connected init1)) =
      MatchaVariant.obsV ([((0 : Nat), (375 : Nat)), ((0 : Nat), (1024 : Nat))].foldl
        MatchaVariant.stepV (MatchaVariant.vConnected MatchaVariant.vinit1)) :=
  c9_no_video_equivalence init1 MatchaVariant.vinit1 rfl (by decide) (by decide)
    (gtv_none_of_absent init1.rows (by decide))
    [((0 : Nat), (375 : Nat)), ((0 : Nat), (1024 : Nat))]

end Matcha
